import Mathlib

/-!
Verification of the temporal-interval extraction and derived-metrics engine
of `src/main.py` (Jira flow-metrics app).

Modelling conventions.

* Instants are modelled as `Int` seconds since an epoch.  All timestamps of
  one item are assumed to carry the same UTC offset, so the calendar date
  of an instant `t` is the day number `t.fdiv 86400` and subtraction of two
  aware datetimes is subtraction of the two `Int`s.  Python's
  `timedelta.days` is floor division of the total seconds by 86400, i.e.
  `Int.fdiv _ 86400`.

* A raw timestamp string is modelled by what the code can observe of it
  (`RawTs`): either it parses under one of the two accepted `strptime`
  formats, yielding an instant, or it is unparseable, in which case the
  only part of it the code ever uses is the text before the first `"T"`,
  modelled by the calendar day that text denotes when itself read as a
  date, if any (`fallbackDate`).

* The result of `parse_datetime` — a `"%Y-%m-%d"` string, a fallback
  prefix, or `""` — is modelled by `DateStr`; `pandas.to_datetime(
  errors="coerce")` and `strptime("%Y-%m-%d")` applied to such a string
  are both modelled by `dateNum` / `pdToDatetime`.

* The Python dict accumulated by `get_status_transition_dates` is modelled
  by an insertion-ordered association list with insert-if-absent.

* `datetime.now(timezone.utc)` is passed in explicitly as a `now : Int`
  parameter.

* Python `round(x, 2)` (on the exact rational value) is modelled by
  `round2`; no property proved here depends on tie-breaking behaviour.
-/

/-- A raw timestamp string as observed by the code: it either parses under
one of the two accepted formats to an instant (seconds since the epoch), or
it is unparseable and only the day denoted by its text before the first
`"T"` (if that text is a date) is retained. -/
inductive RawTs where
  | parsed (t : Int)
  | malformed (fallbackDate : Option Int)
deriving DecidableEq, Repr

/-- The result of `parse_datetime`: the empty string, a `"%Y-%m-%d"` date
(represented by its day number), or the fallback text before `"T"` of an
unparseable timestamp (represented by the day it denotes, if any). -/
inductive DateStr where
  | empty
  | date (d : Int)
  | raw (fallbackDate : Option Int)
deriving DecidableEq, Repr

/-- One entry of a changelog record's `items` list: a field change with its
before/after display values (`None` modelled as `none`). -/
structure ChangeItem where
  field : String
  fromString : Option String
  toString : Option String
deriving DecidableEq, Repr

/-- One changelog record: a `created` timestamp (absent or empty modelled
as `none`) and its list of field-change items. -/
structure Change where
  created : Option RawTs
  items : List ChangeItem
deriving DecidableEq, Repr

/-- `parse_datetime_raw`: parse under the two accepted formats; as a last
resort return `now` (the code returns `datetime.now(timezone.utc)`). -/
def parse_datetime_raw (now : Int) : RawTs → Int
  | RawTs.parsed t => t
  | RawTs.malformed _ => now

/-- `parse_datetime`: format the parsed datetime as `"%Y-%m-%d"`; on parse
failure fall back to the text before the first `"T"`. -/
def parse_datetime : RawTs → DateStr
  | RawTs.parsed t => DateStr.date (t.fdiv 86400)
  | RawTs.malformed f => DateStr.raw f

/-- Reading a `DateStr` back as a `"%Y-%m-%d"` date (used by `min_date`'s
`strptime` and by `pandas.to_datetime(errors="coerce")`). -/
def dateNum : DateStr → Option Int
  | DateStr.empty => none
  | DateStr.date d => some d
  | DateStr.raw f => f

/-- `min_date`: drop falsy (empty) entries, parse the rest as dates,
return the minimum formatted as a date, or `""` when nothing parses. -/
def min_date (ds : List DateStr) : DateStr :=
  let valid := ds.filter (fun d => d ≠ DateStr.empty)
  let parsedDs := valid.filterMap dateNum
  match parsedDs.min? with
  | none => DateStr.empty
  | some m => DateStr.date m

/-- Lookup by string key in an insertion-ordered association list
(Python `dict[k]` / `k in dict`). -/
def lookupD (s : String) : List (String × DateStr) → Option DateStr
  | [] => none
  | e :: tl => if e.1 = s then some e.2 else lookupD s tl

/-- Insert-if-absent (Python `if status not in status_dates:
status_dates[status] = date`). -/
def insFirst (m : List (String × DateStr)) (e : String × DateStr) :
    List (String × DateStr) :=
  match lookupD e.1 m with
  | some _ => m
  | none => m ++ [e]

/-- The status entry a single changelog item contributes: the `toString`
value paired with the date of the record's `created` timestamp, provided
the item is a status change and the value is truthy. -/
def statusItemEntry (cr : RawTs) (it : ChangeItem) : Option (String × DateStr) :=
  if it.field = "status" then
    match it.toString with
    | some s => if s ≠ "" then some (s, parse_datetime cr) else none
    | none => none
  else none

/-- `get_status_transition_dates` (fetch boundary removed: the changelog is
supplied).  Walks records in the supplied order, skipping records without a
`created` value, inserting each status's date only if the status is not
yet present. -/
def get_status_transition_dates (log : List Change) : List (String × DateStr) :=
  log.foldl (fun m c =>
    match c.created with
    | none => m
    | some cr => c.items.foldl (fun m it =>
        match statusItemEntry cr it with
        | some e => insFirst m e
        | none => m) m) []

/-- The flattened, in-order list of status entries of a changelog (the
sequence of insert attempts `get_status_transition_dates` performs). -/
def statusEntries (log : List Change) : List (String × DateStr) :=
  log.flatMap (fun c =>
    match c.created with
    | none => []
    | some cr => c.items.filterMap (statusItemEntry cr))

/-- First entry with the given key in a list of status entries. -/
def findEntry (s : String) : List (String × DateStr) → Option DateStr
  | [] => none
  | e :: tl => if e.1 = s then some e.2 else findEntry s tl

/-- The filter of `get_blocked_days`: a status item entering or leaving
`"Blocked"`. -/
def isBlockedItem (it : ChangeItem) : Bool :=
  it.field = "status" &&
    (it.toString = some ("Blocked" : String) || it.fromString = some ("Blocked" : String))

/-- The `blocked_dates` list of `get_blocked_days`: one parsed timestamp
per matching item, in the supplied record order. -/
def blockedDates (now : Int) (log : List Change) : List Int :=
  log.flatMap (fun c =>
    match c.created with
    | none => []
    | some cr => (c.items.filter isBlockedItem).map (fun _ => parse_datetime_raw now cr))

/-- The pairing loop of `get_blocked_days`: consecutive positional pairs,
an unpaired final element closed against `now`, each pair contributing its
whole-day difference (`timedelta.days`, i.e. floor). -/
def pairDays (now : Int) : List Int → Int
  | [] => 0
  | [s] => (now - s).fdiv 86400
  | s :: e :: tl => (e - s).fdiv 86400 + pairDays now tl

/-- `get_blocked_days` (fetch boundary removed; `datetime.now` supplied as
`now`). -/
def get_blocked_days (now : Int) (log : List Change) : Int :=
  pairDays now (blockedDates now log)

/-- The interval set the positional pairing of `get_blocked_days` computes
day counts over: 1st event with 2nd, 3rd with 4th, …, an unpaired final
event opening an interval closed at `now`. -/
def pairIntervals (now : Int) : List Int → List (Int × Int)
  | [] => []
  | [s] => [(s, now)]
  | s :: e :: tl => (s, e) :: pairIntervals now tl

/-- One peer-review occupancy period (`{"start": …, "end": …}` dict of
`get_peer_review_unassigned_time`; `end = None` while open). -/
structure PRPeriod where
  start : Int
  endTime : Option Int
deriving DecidableEq, Repr

/-- One assignee change record of `get_peer_review_unassigned_time`. -/
structure AChange where
  time : Int
  fromO : Option String
  toO : Option String
deriving DecidableEq, Repr

/-- Close the first still-open period in the list, if any. -/
def closeFirstOpen (t : Int) : List PRPeriod → List PRPeriod
  | [] => []
  | p :: tl =>
    match p.endTime with
    | none => { p with endTime := some t } :: tl
    | some _ => p :: closeFirstOpen t tl

/-- The reversed-list scan of the source: close the most recently opened
still-open period. -/
def closeLastOpen (t : Int) (ps : List PRPeriod) : List PRPeriod :=
  (closeFirstOpen t ps.reverse).reverse

/-- Per-item step of the extraction loop of
`get_peer_review_unassigned_time`: a status item entering `"Peer Review"`
appends an open period; a status item leaving it closes the most recently
opened open period provided some period exists; an assignee item is
recorded in the ownership stream; anything else is ignored. -/
def processItem (t : Int) (st : List PRPeriod × List AChange) (it : ChangeItem) :
    List PRPeriod × List AChange :=
  if it.field = "status" then
    if it.toString = some ("Peer Review" : String) then
      (st.1 ++ [⟨t, none⟩], st.2)
    else if it.fromString = some ("Peer Review" : String) ∧ st.1 ≠ [] then
      (closeLastOpen t st.1, st.2)
    else st
  else if it.field = "assignee" then
    (st.1, st.2 ++ [⟨t, it.fromString, it.toString⟩])
  else st

/-- Per-record step: skip records without a `created` value, otherwise
process the record's items at the record's parsed time. -/
def processChange (now : Int) (st : List PRPeriod × List AChange) (c : Change) :
    List PRPeriod × List AChange :=
  match c.created with
  | none => st
  | some cr => c.items.foldl (processItem (parse_datetime_raw now cr)) st

/-- The extraction loop of `get_peer_review_unassigned_time`: peer-review
periods and assignee changes accumulated over the changelog in supplied
order. -/
def extractPR (now : Int) (log : List Change) : List PRPeriod × List AChange :=
  log.foldl (processChange now) ([], [])

/-- Resolving periods for duration math: an open period's end becomes
`now` (lines 148–151 of the source). -/
def resolvePeriods (now : Int) (ps : List PRPeriod) : List (Int × Int) :=
  ps.map (fun p =>
    match p.endTime with
    | none => (p.start, now)
    | some e => (p.start, e))

/-- Unassigned seconds inside one resolved period `[s, e]`: sort the
in-range assignee changes by time, walk forward with a current-owner
cursor starting at `None`, accumulating gap time while the cursor is
`None`, including the tail gap up to `e`. -/
def periodUnassigned (achs : List AChange) (s e : Int) : Int :=
  let rel := (achs.filter (fun c => decide (s ≤ c.time ∧ c.time ≤ e))).mergeSort
    (fun a b => decide (a.time ≤ b.time))
  let fin := rel.foldl
    (fun (acc : Int × Option String × Int) c =>
      let tot := if acc.2.1 = none then acc.2.2 + (c.time - acc.1) else acc.2.2
      (c.time, c.toO, tot))
    (s, none, 0)
  if fin.2.1 = none then fin.2.2 + (e - fin.1) else fin.2.2

/-- Total unassigned seconds across all (resolved) peer-review periods. -/
def totalUnassignedSeconds (now : Int) (ps : List PRPeriod) (achs : List AChange) : Int :=
  ((resolvePeriods now ps).map (fun pr => periodUnassigned achs pr.1 pr.2)).sum

/-- Python `round(x, 2)` on the exact rational value. -/
def round2 (x : Rat) : Rat := ((round (x * 100) : Int) : Rat) / 100

/-- Python `not issue_key or issue_key.strip() == ""`: true exactly when
every character of the key is whitespace — in particular for the empty
string. -/
def isBlankKey (k : String) : Bool :=
  k.data.all (fun c => c.isWhitespace)

/-- `get_peer_review_unassigned_time` (fetch boundary removed; `now`
supplied): empty or whitespace-only issue key short-circuits to `0.0`;
otherwise the total unassigned seconds converted to days, rounded to two
decimals. -/
def get_peer_review_unassigned_time (issue_key : String) (now : Int)
    (log : List Change) : Rat :=
  if isBlankKey issue_key then 0
  else
    let st := extractPR now log
    round2 (((totalUnassignedSeconds now st.1 st.2 : Int) : Rat) / 86400)

/-- `status_dates.get(s, "") or ""` of the row assembly. -/
def statusGet (m : List (String × DateStr)) (s : String) : DateStr :=
  match lookupD s m with
  | some d => d
  | none => DateStr.empty

/-- Python `x or y` on date strings: the left value unless it is falsy. -/
def orD (a b : DateStr) : DateStr :=
  if a = DateStr.empty then b else a

/-- `pandas.to_datetime(_, errors="coerce")` on a `DateStr`: a date string
coerces to its day, the fallback text of an unparseable timestamp coerces
to the day it denotes if any, the empty string to `NaT`. -/
def pdToDatetime : DateStr → Option Int
  | DateStr.empty => none
  | DateStr.date d => some d
  | DateStr.raw f => f

/-- The date columns of one assembled row (module-level row assembly,
lines 288–334 of the source). -/
structure Row where
  backlog : DateStr
  in_progress : DateStr
  peer_review : DateStr
  pending_deployment : DateStr
  testing : DateStr
  approved : DateStr
  closed : DateStr
  end_date : DateStr
deriving DecidableEq, Repr

/-- The row assembly: status dates from `get_status_transition_dates`,
the Backlog column falling back to the issue's `created` date when no
Backlog transition was recorded, the end date as the earliest of Testing /
Approved for Release / Closed. -/
def assembleRow (created : Option RawTs) (log : List Change) : Row :=
  let m := get_status_transition_dates log
  let testing := statusGet m "Testing"
  let approved := statusGet m "Approved for Release"
  let closed := statusGet m "Closed"
  { backlog := orD (statusGet m "Backlog")
      (match created with
       | some cr => parse_datetime cr
       | none => DateStr.empty)
    in_progress := orD (statusGet m "In Progress") (statusGet m "InProgress")
    peer_review := statusGet m "Peer Review"
    pending_deployment := statusGet m "Pending Deployment"
    testing := testing
    approved := approved
    closed := closed
    end_date := min_date [testing, approved, closed] }

/-- `Cycle Time` column: `(to_datetime(End Date) - to_datetime(In
Progress)).dt.days + 1`, undefined (`NaN`) when either coercion fails. -/
def cycle_time (r : Row) : Option Int :=
  match pdToDatetime r.end_date, pdToDatetime r.in_progress with
  | some e, some i => some (e - i + 1)
  | _, _ => none

/-- `Lead Time` column: `(to_datetime(End Date) - to_datetime(Backlog))
.dt.days + 1`, undefined when either coercion fails. -/
def lead_time (r : Row) : Option Int :=
  match pdToDatetime r.end_date, pdToDatetime r.backlog with
  | some e, some b => some (e - b + 1)
  | _, _ => none

/-- `Ramp Time` column: `(to_datetime(In Progress) -
to_datetime(Backlog)).dt.days`, undefined when either coercion fails. -/
def ramp_time (r : Row) : Option Int :=
  match pdToDatetime r.in_progress, pdToDatetime r.backlog with
  | some i, some b => some (i - b)
  | _, _ => none

/-- `Flow Efficiency` column: `Cycle Time / Lead Time` when both are
defined and `Lead Time != 0`, else `0`. -/
def flow_efficiency (r : Row) : Rat :=
  match cycle_time r, lead_time r with
  | some c, some l => if l ≠ 0 then ((c : Rat) / (l : Rat)) else 0
  | _, _ => 0

/-- Induction principle matching the two-at-a-time positional pairing
recursion. -/
theorem twoStepInduction {P : List Int → Prop} (h0 : P []) (h1 : ∀ a, P [a])
    (h2 : ∀ a b l, P l → P (a :: b :: l)) : ∀ l, P l
  | [] => h0
  | [a] => h1 a
  | a :: b :: l => h2 a b l (twoStepInduction h0 h1 h2 l)

/-- The day total of the pairing loop is the sum, over the positional
interval set, of each interval's whole-day length. -/
theorem pairDays_eq_sum (now : Int) (l : List Int) :
    pairDays now l
      = ((pairIntervals now l).map (fun p => (p.2 - p.1).fdiv 86400)).sum := by
  induction l using twoStepInduction with
  | h0 => simp [pairDays, pairIntervals]
  | h1 a => simp [pairDays, pairIntervals]
  | h2 a b l ih => simp [pairDays, pairIntervals, ih]

/-- Appending one event to an evenly-paired timeline opens a final
interval closed at `now`. -/
theorem pairIntervals_append_even (now : Int) :
    ∀ (ds : List Int), Even ds.length → ∀ s : Int,
      pairIntervals now (ds ++ [s]) = pairIntervals now ds ++ [(s, now)] := by
  intro ds
  induction ds using twoStepInduction with
  | h0 => intro _ s; simp [pairIntervals]
  | h1 a =>
    intro h s
    rw [List.length_singleton] at h
    exact absurd h (by decide)
  | h2 a b l ih =>
    intro h s
    have hl : Even l.length := by
      rw [List.length_cons, List.length_cons, Nat.even_iff] at h
      rw [Nat.even_iff]
      omega
    simp [pairIntervals, ih hl s]

/-- Left-biased choice on optional values (Python `or` on dict lookups). -/
def orOpt (a b : Option DateStr) : Option DateStr :=
  match a with
  | some v => some v
  | none => b

theorem orOpt_none_right (a : Option DateStr) : orOpt a none = a := by
  cases a <;> rfl

theorem lookupD_append (s : String) :
    ∀ (m1 m2 : List (String × DateStr)),
      lookupD s (m1 ++ m2) = orOpt (lookupD s m1) (lookupD s m2) := by
  intro m1
  induction m1 with
  | nil => intro m2; rfl
  | cons e tl ih =>
    intro m2
    by_cases h : e.1 = s <;> simp [lookupD, h, orOpt, ih]

theorem lookupD_insFirst (s : String) (m : List (String × DateStr))
    (e : String × DateStr) :
    lookupD s (insFirst m e)
      = orOpt (lookupD s m) (if e.1 = s then some e.2 else none) := by
  unfold insFirst
  cases hk : lookupD e.1 m with
  | some v =>
    by_cases hes : e.1 = s
    · subst hes
      simp [hk, orOpt]
    · simp [hes, orOpt_none_right]
  | none =>
    rw [lookupD_append]
    have h1 : lookupD s [e] = (if e.1 = s then some e.2 else none) := by
      simp [lookupD]
    rw [h1]

theorem lookupD_foldIns (s : String) :
    ∀ (es : List (String × DateStr)) (m : List (String × DateStr)),
      lookupD s (es.foldl insFirst m) = orOpt (lookupD s m) (findEntry s es) := by
  intro es
  induction es with
  | nil => intro m; simp [findEntry, orOpt_none_right]
  | cons e tl ih =>
    intro m
    rw [List.foldl_cons, ih, lookupD_insFirst]
    by_cases hes : e.1 = s <;> cases hm : lookupD s m <;>
      simp [findEntry, hes, hm, orOpt]

/-- The per-record items fold of `get_status_transition_dates` performs
exactly the insert attempts of the record's status entries, in order. -/
theorem itemsFold_eq (cr : RawTs) :
    ∀ (its : List ChangeItem) (m : List (String × DateStr)),
      its.foldl (fun m it =>
        match statusItemEntry cr it with
        | some e => insFirst m e
        | none => m) m
      = (its.filterMap (statusItemEntry cr)).foldl insFirst m := by
  intro its
  induction its with
  | nil => intro m; rfl
  | cons it tl ih =>
    intro m
    cases h : statusItemEntry cr it <;>
      simp [List.filterMap_cons, h, ih]

/-- `get_status_transition_dates` is the insert-if-absent fold over the
flattened status-entry sequence. -/
theorem get_status_eq_foldIns :
    ∀ (log : List Change) (m : List (String × DateStr)),
      log.foldl (fun m c =>
        match c.created with
        | none => m
        | some cr => c.items.foldl (fun m it =>
            match statusItemEntry cr it with
            | some e => insFirst m e
            | none => m) m) m
      = (statusEntries log).foldl insFirst m := by
  intro log
  induction log with
  | nil => intro m; rfl
  | cons c tl ih =>
    intro m
    rw [List.foldl_cons]
    cases hc : c.created with
    | none => simp [statusEntries, hc, ih]
    | some cr =>
      rw [ih]
      simp [statusEntries, hc, List.foldl_append, itemsFold_eq]

/-- Shorthand: a status-change item. -/
def stItem (f t : Option String) : ChangeItem := ⟨"status", f, t⟩

/-- Shorthand: an assignee-change item. -/
def asgItem (f t : Option String) : ChangeItem := ⟨"assignee", f, t⟩

/-- Shorthand: a changelog record at a parseable instant. -/
def chgAt (t : Int) (its : List ChangeItem) : Change := ⟨some (RawTs.parsed t), its⟩

/-- A changelog that enters `"Peer Review"` at `t` and never leaves it. -/
def enterPRLog (t : Int) : List Change :=
  [chgAt t [stItem (some "In Progress") (some "Peer Review")]]

/-- Two consecutive enter-Blocked events (malformed alternation). -/
def twoBlockedEnters : List Change :=
  [chgAt 0 [stItem (some "Open") (some "Blocked")],
   chgAt 100000 [stItem (some "Open") (some "Blocked")]]

/-- Two enter-Blocked events supplied in reverse chronological order. -/
def unsortedBlockedLog : List Change :=
  [chgAt 86400 [stItem none (some "Blocked")],
   chgAt 0 [stItem none (some "Blocked")]]

/-- The same two enter-Blocked events in chronological order. -/
def sortedBlockedLog : List Change :=
  [chgAt 0 [stItem none (some "Blocked")],
   chgAt 86400 [stItem none (some "Blocked")]]

/-- `sortedBlockedLog` with an extra record irrelevant to blocked pairing. -/
def noisyBlockedLog : List Change :=
  sortedBlockedLog ++ [⟨some (RawTs.parsed 100), [⟨"comment", none, none⟩]⟩]

/-- A status `"A"` entered at day 2 and re-entered (in supplied order)
with an earlier timestamp, day 0. -/
def reEnterLog : List Change :=
  [chgAt 172800 [stItem none (some "A")],
   chgAt 0 [stItem none (some "A")]]

/-- A changelog whose only peer-review event is an exit (log starts
mid-interval). -/
def exitFirstPRLog : List Change :=
  [chgAt 0 [stItem (some "Peer Review") (some "In Progress")]]

/-- An enter-Blocked event with an unparseable timestamp followed by an
exit-Blocked event at instant 0. -/
def malformedBlockedLog : List Change :=
  [⟨some (RawTs.malformed none), [stItem none (some "Blocked")]⟩,
   chgAt 0 [stItem (some "Blocked") (some "Open")]]

/-- `malformedBlockedLog` with the unparseable-timestamp event removed. -/
def droppedBlockedLog : List Change :=
  [chgAt 0 [stItem (some "Blocked") (some "Open")]]

/-- Backlog day 0, In Progress day 5, Testing day 0: the end date precedes
the in-progress date. -/
def negativeEffLog : List Change :=
  [chgAt 0 [stItem none (some "Backlog")],
   chgAt 432000 [stItem none (some "In Progress")],
   chgAt 0 [stItem none (some "Testing")]]

/-- Backlog day 0, In Progress day 1, Testing day 3. -/
def goodEffLog : List Change :=
  [chgAt 0 [stItem none (some "Backlog")],
   chgAt 86400 [stItem none (some "In Progress")],
   chgAt 259200 [stItem none (some "Testing")]]

/-- In Progress day 1, Testing day 3, no Backlog transition. -/
def noBacklogLog : List Change :=
  [chgAt 86400 [stItem none (some "In Progress")],
   chgAt 259200 [stItem none (some "Testing")]]

/-- C1: for every blocked-marker event stream, the blocked-day total is
the sum, over the positionally paired interval set (1st event with 2nd,
3rd with 4th, …), of each interval's whole-day length, floor-truncated;
in particular a stream of exactly two blocked-marker events at `t0` and
`t1` (e.g. two consecutive enters) forms the single closed interval
`[t0, t1]` contributing `⌊(t1 − t0)/86400⌋` days. -/
theorem claim_C1 :
    (∀ (now : Int) (log : List Change),
      get_blocked_days now log
        = ((pairIntervals now (blockedDates now log)).map
            (fun p => (p.2 - p.1).fdiv 86400)).sum)
    ∧ (∀ (now : Int) (log : List Change) (t0 t1 : Int),
        blockedDates now log = [t0, t1] →
        pairIntervals now (blockedDates now log) = [(t0, t1)]
          ∧ get_blocked_days now log = (t1 - t0).fdiv 86400) := by
  constructor
  · intro now log
    exact pairDays_eq_sum now (blockedDates now log)
  · intro now log t0 t1 h
    constructor
    · rw [h]
      simp [pairIntervals]
    · unfold get_blocked_days
      rw [h]
      simp [pairDays]

/-- Witness for C1: the two-consecutive-enters stream `twoBlockedEnters`
pairs into the single closed interval `[0, 100000]` and reports
`⌊100000/86400⌋ = 1` blocked day. -/
theorem claim_C1_witness :
    pairIntervals 200000 (blockedDates 200000 twoBlockedEnters) = [(0, 100000)]
      ∧ get_blocked_days 200000 twoBlockedEnters = ((100000 : Int) - 0).fdiv 86400 :=
  claim_C1.2 200000 twoBlockedEnters 0 100000 (by decide)

/-- C2: a final pairing event with no closing counterpart yields an
interval resolved to the supplied `now`, never a zero-duration one: an
odd event appended to an evenly-paired blocked timeline produces the extra
interval `(s, now)`; every open peer-review period resolves to `(start,
now)`; and an item entering Peer Review at `t` and never leaving yields
the single open period `⟨t, none⟩` whose unassigned duration is the full
`now − t`, not zero. -/
theorem claim_C2 :
    (∀ (now : Int) (ds : List Int) (s : Int), Even ds.length →
      pairIntervals now (ds ++ [s]) = pairIntervals now ds ++ [(s, now)])
    ∧ (∀ (now : Int) (ps : List PRPeriod) (p : PRPeriod),
        p ∈ ps → p.endTime = none → (p.start, now) ∈ resolvePeriods now ps)
    ∧ (∀ (now t : Int),
        extractPR now (enterPRLog t) = ([⟨t, none⟩], [])
          ∧ totalUnassignedSeconds now [⟨t, none⟩] [] = now - t) := by
  refine ⟨?_, ?_, ?_⟩
  · intro now ds s h
    exact pairIntervals_append_even now ds h s
  · intro now ps p hp hend
    unfold resolvePeriods
    refine List.mem_map.mpr ⟨p, hp, ?_⟩
    rw [hend]
  · intro now t
    constructor
    · simp [extractPR, enterPRLog, chgAt, stItem, processChange, processItem,
        parse_datetime_raw]
    · simp [totalUnassignedSeconds, resolvePeriods, periodUnassigned,
        List.mergeSort_nil]

/-- Witness for C2 at concrete inputs. -/
theorem claim_C2_witness :
    (pairIntervals 86400 ([] ++ [0]) = pairIntervals 86400 [] ++ [(0, 86400)])
      ∧ (((5 : Int), (86400 : Int)) ∈ resolvePeriods 86400 [⟨5, none⟩]) :=
  ⟨claim_C2.1 86400 [] 0 (by decide),
   claim_C2.2.1 86400 [⟨5, none⟩] ⟨5, none⟩ (by decide) rfl⟩

/-- C3: a review interval containing no ownership-change event inside
`[start, end]` contributes exactly its full length to the unassigned
total, and an item whose extraction produces no review periods yields
exactly 0. -/
theorem claim_C3 :
    (∀ (achs : List AChange) (s e : Int),
      (∀ c ∈ achs, ¬(s ≤ c.time ∧ c.time ≤ e)) →
      periodUnassigned achs s e = e - s)
    ∧ (∀ (key : String) (now : Int) (log : List Change),
        (extractPR now log).1 = [] →
        get_peer_review_unassigned_time key now log = 0) := by
  constructor
  · intro achs s e h
    have hf : achs.filter (fun c => decide (s ≤ c.time ∧ c.time ≤ e)) = [] := by
      rw [List.filter_eq_nil_iff]
      intro c hc
      simpa using h c hc
    simp only [periodUnassigned]
    rw [hf]
    simp [List.mergeSort_nil]
  · intro key now log h
    unfold get_peer_review_unassigned_time
    by_cases hk : isBlankKey key
    · simp [hk]
    · simp [hk, h, totalUnassignedSeconds, resolvePeriods, round2]

/-- Witness for C3 at concrete inputs: one ownership change outside the
interval `[0, 5]`, and an item whose changelog produces no review
periods. -/
theorem claim_C3_witness :
    periodUnassigned [⟨10, none, some "u"⟩] 0 5 = 5 - 0
      ∧ get_peer_review_unassigned_time "K" 7 [] = 0 :=
  ⟨claim_C3.1 [⟨10, none, some "u"⟩] 0 5 (by decide),
   claim_C3.2 "K" 7 [] rfl⟩

/-- C4 counterexample: in `reEnterLog` the status `"A"` is entered at day
2 by the first record of the supplied order and at day 0 by the second,
yet the map records day 2 — not the chronologically earliest day 0 the
claim requires. -/
theorem claim_C4_counterexample :
    statusEntries reEnterLog = [("A", DateStr.date 2), ("A", DateStr.date 0)]
      ∧ lookupD "A" (get_status_transition_dates reEnterLog) = some (DateStr.date 2)
      ∧ DateStr.date 2 ≠ DateStr.date 0 := by
  decide

/-- C4 (amended): the first-entry status map sends each status to the date
of the first event *in the supplied order* entering it (the chronologically
earliest only when the changelog is time-sorted); later re-entries of an
already-seen status never overwrite the recorded date, and an empty log
yields an empty mapping. -/
theorem claim_C4_amended :
    (∀ (log : List Change) (s : String),
      lookupD s (get_status_transition_dates log) = findEntry s (statusEntries log))
    ∧ get_status_transition_dates [] = [] := by
  constructor
  · intro log s
    have h := get_status_eq_foldIns log []
    unfold get_status_transition_dates
    rw [h, lookupD_foldIns]
    rfl
  · rfl

/-- C5 counterexample: the two enter-Blocked events of
`unsortedBlockedLog` arrive in reverse chronological order; re-sorting
them by timestamp (`sortedBlockedLog`) changes the paired interval set
from `[(86400, 0)]` to `[(0, 86400)]` and the blocked-day total from `-1`
to `1`, so re-sorting does not preserve the pairing result. -/
theorem claim_C5_counterexample :
    (blockedDates 864000 unsortedBlockedLog).Perm (blockedDates 864000 sortedBlockedLog)
      ∧ blockedDates 864000 sortedBlockedLog = [0, 86400]
      ∧ pairIntervals 864000 (blockedDates 864000 unsortedBlockedLog) = [(86400, 0)]
      ∧ pairIntervals 864000 (blockedDates 864000 sortedBlockedLog) = [(0, 86400)]
      ∧ get_blocked_days 864000 unsortedBlockedLog = -1
      ∧ get_blocked_days 864000 sortedBlockedLog = 1 := by
  decide

/-- C5 (amended): the engine does not sort before pairing; pairing is
performed in the supplied order, so shuffling and re-sorting yields an
identical result exactly when the originally supplied matching events
were already time-sorted: any two changelogs whose blocked-event
timelines are permutations of each other and both time-sorted produce
the same blocked-day total. -/
theorem claim_C5_amended (now : Int) (log log2 : List Change)
    (hperm : (blockedDates now log).Perm (blockedDates now log2))
    (h1 : List.Sorted (· ≤ ·) (blockedDates now log))
    (h2 : List.Sorted (· ≤ ·) (blockedDates now log2)) :
    get_blocked_days now log = get_blocked_days now log2 := by
  have heq : blockedDates now log = blockedDates now log2 :=
    List.eq_of_perm_of_sorted hperm h1 h2
  unfold get_blocked_days
  rw [heq]

/-- Witness for C5 (amended): a time-sorted blocked changelog and the same
changelog with an extra irrelevant record report the same blocked days. -/
theorem claim_C5_witness :
    get_blocked_days 864000 sortedBlockedLog = get_blocked_days 864000 noisyBlockedLog :=
  claim_C5_amended 864000 sortedBlockedLog noisyBlockedLog (by decide) (by decide)
    (by decide)

/-- C6 counterexample: `exitFirstPRLog`'s only matching event leaves
`"Peer Review"`; the claim requires the first matching event to open an
interval regardless of predicate, but the extraction produces no period at
all and reports zero unassigned time. -/
theorem claim_C6_counterexample :
    extractPR 86400 exitFirstPRLog = ([], [])
      ∧ get_peer_review_unassigned_time "K" 86400 exitFirstPRLog = 0 := by
  constructor
  · decide
  · have hb : isBlankKey "K" = false := by decide
    have h1 : extractPR 86400 exitFirstPRLog = ([], []) := by decide
    simp [get_peer_review_unassigned_time, hb, h1, totalUnassignedSeconds,
      resolvePeriods, round2]

/-- C6 (amended): only the blocked-marker pairing is positional — there
the first matching event always starts the first interval regardless of
whether it entered or left `"Blocked"`.  Peer-review pairing is not: an
event entering `"Peer Review"` appends a new open period, while an event
leaving it (when it is not also an entry) closes the most recently opened
open period and is ignored when no period exists, so a leading exit does
not open an interval. -/
theorem claim_C6_amended :
    (∀ (now d : Int) (ds : List Int),
      ((pairIntervals now (d :: ds)).map Prod.fst).head? = some d)
    ∧ (∀ (t : Int) (ps : List PRPeriod) (ach : List AChange) (it : ChangeItem),
        it.field = "status" → it.toString = some ("Peer Review" : String) →
        processItem t (ps, ach) it = (ps ++ [⟨t, none⟩], ach))
    ∧ (∀ (t : Int) (ach : List AChange) (it : ChangeItem),
        it.field = "status" → it.toString ≠ some ("Peer Review" : String) →
        processItem t ([], ach) it = ([], ach)) := by
  refine ⟨?_, ?_, ?_⟩
  · intro now d ds
    cases ds <;> simp [pairIntervals]
  · intro t ps ach it hf ht
    simp [processItem, hf, ht]
  · intro t ach it hf ht
    simp [processItem, hf, ht]

/-- Witness for C6 (amended): an enter event appends an open period; a
lone exit event on an empty period list is ignored. -/
theorem claim_C6_witness :
    processItem 5 ([], []) (stItem none (some "Peer Review")) = ([⟨5, none⟩], [])
      ∧ processItem 9 ([], []) (stItem (some "Peer Review") (some "Testing")) = ([], []) :=
  ⟨claim_C6_amended.2.1 5 [] [] (stItem none (some "Peer Review")) rfl rfl,
   claim_C6_amended.2.2 9 [] (stItem (some "Peer Review") (some "Testing")) rfl
     (by decide)⟩

/-- C7 counterexample: in `malformedBlockedLog` the enter-Blocked event's
timestamp is unparseable; with `now = 432000` the event is not dropped —
`parse_datetime_raw` substitutes `now`, so the pairing sees `[432000, 0]`
and reports `-5` blocked days, while dropping the event
(`droppedBlockedLog`) would report `5`. -/
theorem claim_C7_counterexample :
    blockedDates 432000 malformedBlockedLog = [432000, 0]
      ∧ get_blocked_days 432000 malformedBlockedLog = -5
      ∧ get_blocked_days 432000 droppedBlockedLog = 5 := by
  decide

/-- C7 (amended): an event whose timestamp cannot be parsed is NOT
dropped: `parse_datetime_raw` substitutes the current time, so the event
contributes the fabricated instant `now` to interval pairing, and
`parse_datetime` falls back to the text before `"T"`; extraction
continues. -/
theorem claim_C7_amended :
    (∀ (now : Int) (f : Option Int),
      parse_datetime_raw now (RawTs.malformed f) = now)
    ∧ (∀ f : Option Int, parse_datetime (RawTs.malformed f) = DateStr.raw f)
    ∧ (∀ (now : Int) (f : Option Int) (it : ChangeItem) (rest : List Change),
        isBlockedItem it = true →
        blockedDates now (⟨some (RawTs.malformed f), [it]⟩ :: rest)
          = now :: blockedDates now rest) := by
  refine ⟨fun _ _ => rfl, fun _ => rfl, ?_⟩
  intro now f it rest hb
  simp [blockedDates, List.filter_cons, hb, parse_datetime_raw]

/-- Witness for C7 (amended): an enter-Blocked event with an unparseable
timestamp contributes the substituted instant `now = 7`. -/
theorem claim_C7_witness :
    blockedDates 7 [⟨some (RawTs.malformed none), [stItem none (some "Blocked")]⟩]
      = 7 :: blockedDates 7 [] :=
  claim_C7_amended.2.2 7 none (stItem none (some "Blocked")) [] (by decide)

/-- C8 counterexample: in `negativeEffLog` the end date (day 0) precedes
the In Progress date (day 5), so `Cycle Time = -4`, `Lead Time = 1`, and
`Flow Efficiency = -4 < 0` — the value does not always lie in `[0, ∞)`. -/
theorem claim_C8_counterexample :
    cycle_time (assembleRow none negativeEffLog) = some (-4)
      ∧ lead_time (assembleRow none negativeEffLog) = some 1
      ∧ flow_efficiency (assembleRow none negativeEffLog) = -4
      ∧ ((-4 : Rat) < 0) := by
  refine ⟨by decide, by decide, ?_, by norm_num⟩
  have hc : cycle_time (assembleRow none negativeEffLog) = some (-4) := by decide
  have hl : lead_time (assembleRow none negativeEffLog) = some 1 := by decide
  rw [flow_efficiency, hc, hl]
  norm_num

/-- C8 (amended): `flow_efficiency` equals `cycle_time / lead_time` when
both are defined and `lead_time ≠ 0`, and equals exactly `0` otherwise;
it is nonnegative whenever `cycle_time` and `lead_time` are both
nonnegative, but can be negative when the end date precedes the
in-progress or backlog date. -/
theorem claim_C8_amended (r : Row) :
    (∀ c l : Int, cycle_time r = some c → lead_time r = some l → l ≠ 0 →
      flow_efficiency r = (c : Rat) / (l : Rat))
    ∧ ((cycle_time r = none ∨ lead_time r = none ∨ lead_time r = some 0) →
      flow_efficiency r = 0)
    ∧ (∀ c l : Int, cycle_time r = some c → lead_time r = some l →
      0 ≤ c → 0 ≤ l → 0 ≤ flow_efficiency r) := by
  refine ⟨?_, ?_, ?_⟩
  · intro c l hc hl hl0
    rw [flow_efficiency, hc, hl]
    simp [hl0]
  · intro h
    rcases h with h | h | h
    · rw [flow_efficiency, h]
    · rw [flow_efficiency, h]
      cases cycle_time r <;> rfl
    · rw [flow_efficiency, h]
      cases cycle_time r <;> simp
  · intro c l hc hl hcn hln
    by_cases h0 : l = 0
    · rw [flow_efficiency, hc, hl, h0]
      simp
    · have he : flow_efficiency r = (c : Rat) / (l : Rat) := by
        rw [flow_efficiency, hc, hl]
        simp [h0]
      rw [he]
      exact div_nonneg (by exact_mod_cast hcn) (by exact_mod_cast hln)

/-- Witness for C8 (amended): for `goodEffLog` (Backlog day 0, In Progress
day 1, Testing day 3) the flow efficiency is `3/4`. -/
theorem claim_C8_witness :
    flow_efficiency (assembleRow none goodEffLog) = ((3 : Int) : Rat) / ((4 : Int) : Rat) :=
  (claim_C8_amended (assembleRow none goodEffLog)).1 3 4 (by decide) (by decide)
    (by decide)

/-- C9 counterexample: `noBacklogLog` has no `"Backlog"` transition, yet
when the issue's `created` field parses (day 0) the Backlog column falls
back to it, so `lead_time = some 4` and `ramp_time = some 1` — not
undefined/blank as the claim requires. -/
theorem claim_C9_counterexample :
    lookupD "Backlog" (get_status_transition_dates noBacklogLog) = none
      ∧ lead_time (assembleRow (some (RawTs.parsed 0)) noBacklogLog) = some 4
      ∧ ramp_time (assembleRow (some (RawTs.parsed 0)) noBacklogLog) = some 1 := by
  decide

/-- C9 (amended): for an item whose changelog has no `"Backlog"`
transition AND whose `created` field is absent (or empty), `lead_time`
and `ramp_time` are undefined/blank, while `cycle_time` is still computed
whenever the In Progress date and the end date are both present. -/
theorem claim_C9_amended (log : List Change)
    (hb : lookupD "Backlog" (get_status_transition_dates log) = none) :
    lead_time (assembleRow none log) = none
      ∧ ramp_time (assembleRow none log) = none
      ∧ (∀ e i : Int,
          pdToDatetime (assembleRow none log).end_date = some e →
          pdToDatetime (assembleRow none log).in_progress = some i →
          cycle_time (assembleRow none log) = some (e - i + 1)) := by
  have hbl : (assembleRow none log).backlog = DateStr.empty := by
    simp [assembleRow, statusGet, orD, hb]
  refine ⟨?_, ?_, ?_⟩
  · rw [lead_time, hbl]
    cases pdToDatetime (assembleRow none log).end_date <;> rfl
  · rw [ramp_time, hbl]
    cases pdToDatetime (assembleRow none log).in_progress <;> rfl
  · intro e i he hi
    rw [cycle_time, he, hi]

/-- Witness for C9 (amended): with no Backlog transition and no `created`
date, `noBacklogLog` yields blank lead time but a computed cycle time of
`3 - 1 + 1 = 3`. -/
theorem claim_C9_witness :
    lead_time (assembleRow none noBacklogLog) = none
      ∧ cycle_time (assembleRow none noBacklogLog) = some (3 - 1 + 1) :=
  ⟨(claim_C9_amended noBacklogLog (by decide)).1,
   (claim_C9_amended noBacklogLog (by decide)).2.2 3 1 (by decide) (by decide)⟩

/-- C10: an issue key that is empty or consists only of whitespace makes
`get_peer_review_unassigned_time` return exactly `0.0`, for every
changelog and every `now` — the changelog is never consulted. -/
theorem claim_C10 (key : String) (now : Int) (log : List Change)
    (h : isBlankKey key = true) :
    get_peer_review_unassigned_time key now log = 0 := by
  rw [get_peer_review_unassigned_time, h]
  rfl

/-- Witness for C10: the whitespace-only key `"  "` yields `0` on a
changelog that would otherwise produce a positive unassigned time. -/
theorem claim_C10_witness :
    get_peer_review_unassigned_time "  " 999 (enterPRLog 3) = 0 :=
  claim_C10 "  " 999 (enterPRLog 3) (by decide)
